import Mathlib

/-
Verification development for the daily-briefing repository.

The central artifact is the disk-backed TTL content cache in
src/tools/cache.py, together with the RSS fetch loop in src/tools/rss.py
and the official-cutoff helper in src/tools/util.py. The Python code is
shallowly embedded: JSON documents become an inductive type, the cache
directory becomes a finite map from file names to file contents, stateful
functions pass that map explicitly, and fallible operations return Except
values. Clock reads become explicit integer parameters. Standard-library
facilities that the repository merely calls (the network, the feed XML
parsers, datetime.fromisoformat) are modelled as oracle inputs.
-/

set_option autoImplicit false

namespace DailyBriefing

/-- Shallow embedding of a parsed JSON document, as produced by json.loads.
Numbers are modelled as integers (the payloads the repository caches use
integral numbers; float edge cases are outside every claim considered).
Object key lists model Python dicts, so keys are treated as distinct and
lookup returns the first match. -/
inductive Json where
  | null
  | bool (b : Bool)
  | num (n : Int)
  | str (s : String)
  | arr (xs : List Json)
  | obj (kvs : List (String × Json))
  deriving Repr, BEq

/-- Dictionary lookup on the key-value list of a JSON object, modelling
Python dict access and dict.get. -/
def lookupKV : List (String × Json) → String → Option Json
  | [], _ => none
  | (k, v) :: rest, key => if k = key then some v else lookupKV rest key

/-- Content of one file in the cache directory: either unreadable or not
valid JSON (any attempt to read and parse it raises), or a parsed JSON
document. -/
inductive FileContent where
  | corrupt
  | doc (j : Json)
  deriving Repr, BEq

/-- The cache directory, as a map from file name (the hex digest, without
the .json suffix) to file content; none means the file does not exist. -/
def FS : Type := String → Option FileContent

/-- Overwrite (or create) one file, leaving every other file unchanged.
This models Path.write_text creating or fully replacing a file. -/
def FS.update (fs : FS) (name : String) (c : FileContent) : FS :=
  fun n => if n = name then some c else fs n

/-! ## SHA-1 (hashlib.sha1(...).hexdigest() over the UTF-8 key bytes) -/

/-- Truncate to a 32-bit word. -/
def w32 (x : Nat) : Nat := x % 4294967296

/-- Rotate a 32-bit word left by n bits. -/
def rotl (n x : Nat) : Nat := w32 ((x <<< n) + (x >>> (32 - n)))

/-- Group a byte list into big-endian 32-bit words (16 at a time per
block; the input length is a multiple of 64 after padding). -/
def bytesToWords : List Nat → List Nat
  | a :: b :: c :: d :: rest => (((a * 256 + b) * 256 + c) * 256 + d) :: bytesToWords rest
  | _ => []

/-- Big-endian byte expansion of a number into k bytes. -/
def beBytes : Nat → Nat → List Nat
  | 0, _ => []
  | k + 1, n => beBytes k (n / 256) ++ [n % 256]

/-- SHA-1 message padding: append the byte 0x80, then zeros until the
length is 56 mod 64, then the 64-bit big-endian bit length. -/
def sha1Pad (msg : List Nat) : List Nat :=
  let l := msg.length
  let z := (119 - l % 64) % 64
  msg ++ [128] ++ List.replicate z 0 ++ beBytes 8 (8 * l)

/-- Split a word list into blocks of 16 words. -/
def chunk16 : List Nat → List (List Nat)
  | w0 :: w1 :: w2 :: w3 :: w4 :: w5 :: w6 :: w7 :: w8 :: w9 :: w10 :: w11 :: w12 :: w13 :: w14 :: w15 :: rest =>
      [w0, w1, w2, w3, w4, w5, w6, w7, w8, w9, w10, w11, w12, w13, w14, w15] :: chunk16 rest
  | _ => []

/-- Extend a 16-word block to the 80-word SHA-1 message schedule, adding
one word per unit of fuel. -/
def sha1Extend (ws : List Nat) : Nat → List Nat
  | 0 => ws
  | f + 1 =>
      let n := ws.length
      let x := rotl 1 ((ws.getD (n - 3) 0) ^^^ (ws.getD (n - 8) 0) ^^^
        (ws.getD (n - 14) 0) ^^^ (ws.getD (n - 16) 0))
      sha1Extend (ws ++ [x]) f

/-- Round function of SHA-1, selected by the round index. -/
def sha1F (t b c d : Nat) : Nat :=
  if t < 20 then (b &&& c) ||| ((4294967295 ^^^ b) &&& d)
  else if t < 40 then b ^^^ c ^^^ d
  else if t < 60 then (b &&& c) ||| (b &&& d) ||| (c &&& d)
  else b ^^^ c ^^^ d

/-- Round constant of SHA-1, selected by the round index. -/
def sha1K (t : Nat) : Nat :=
  if t < 20 then 1518500249
  else if t < 40 then 1859775393
  else if t < 60 then 2400959708
  else 3395469782

/-- The 80 compression rounds over one scheduled block, starting at round
index t with working state (a, b, c, d, e). -/
def sha1Rounds : List Nat → Nat → Nat × Nat × Nat × Nat × Nat → Nat × Nat × Nat × Nat × Nat
  | [], _, st => st
  | w :: rest, t, (a, b, c, d, e) =>
      let temp := w32 (rotl 5 a + sha1F t b c d + e + sha1K t + w)
      sha1Rounds rest (t + 1) (temp, a, rotl 30 b, c, d)

/-- Process the padded blocks, chaining the five-word state. -/
def sha1Blocks : List (List Nat) → Nat × Nat × Nat × Nat × Nat → Nat × Nat × Nat × Nat × Nat
  | [], h => h
  | blk :: rest, (h0, h1, h2, h3, h4) =>
      let ws := sha1Extend blk 64
      let (a, b, c, d, e) := sha1Rounds ws 0 (h0, h1, h2, h3, h4)
      sha1Blocks rest (w32 (h0 + a), w32 (h1 + b), w32 (h2 + c), w32 (h3 + d), w32 (h4 + e))

/-- Lowercase hex digit. -/
def hexDigit (n : Nat) : Char :=
  if n < 10 then Char.ofNat (48 + n) else Char.ofNat (87 + n)

/-- Eight-digit lowercase hex rendering of a 32-bit word. -/
def hex8 (n : Nat) : String :=
  String.mk ([7, 6, 5, 4, 3, 2, 1, 0].map (fun i => hexDigit ((n >>> (4 * i)) &&& 15)))

/-- SHA-1 hex digest of a byte list, as hashlib.sha1(bytes).hexdigest(). -/
def sha1Hex (msg : List Nat) : String :=
  let (h0, h1, h2, h3, h4) :=
    sha1Blocks (chunk16 (bytesToWords (sha1Pad msg)))
      (1732584193, 4023233417, 2562383102, 271733878, 3285377520)
  hex8 h0 ++ hex8 h1 ++ hex8 h2 ++ hex8 h3 ++ hex8 h4

/-- UTF-8 encoding of one character, as str.encode("utf-8") produces. -/
def utf8Char (c : Char) : List Nat :=
  let n := c.toNat
  if n < 128 then [n]
  else if n < 2048 then [192 + n / 64, 128 + n % 64]
  else if n < 65536 then [224 + n / 4096, 128 + (n / 64) % 64, 128 + n % 64]
  else [240 + n / 262144, 128 + (n / 4096) % 64, 128 + (n / 64) % 64, 128 + n % 64]

/-- UTF-8 byte encoding of a string. -/
def utf8Bytes (s : String) : List Nat := s.data.flatMap utf8Char

/-- Embedding of cache._make_key: the hex SHA-1 digest of the UTF-8
encoded key string. -/
def _make_key (s : String) : String := sha1Hex (utf8Bytes s)

/-! ## The cache (src/tools/cache.py, function get) -/

/-- Whitespace as stripped by Python str.strip and int(str), restricted
to the ASCII whitespace characters. -/
def isPySpace (c : Char) : Bool :=
  c = ' ' || c = '\t' || c = '\n' || c = '\r' || c = '\x0b' || c = '\x0c'

/-- Drop leading and trailing whitespace characters. -/
def pyStrip (l : List Char) : List Char :=
  ((l.dropWhile isPySpace).reverse.dropWhile isPySpace).reverse

/-- Decimal value of a digit list. -/
def digitsToNat (l : List Char) : Nat :=
  l.foldl (fun a c => a * 10 + (c.toNat - 48)) 0

/-- Model of the Python int(...) construction applied to a string, as in
int(obj.get("ts", 0)) when the ts field holds a string: surrounding
whitespace is stripped, an optional sign is allowed, and the rest must be
decimal digits, else ValueError is raised (modelled by none). -/
def parsePyIntStr (s : String) : Option Int :=
  match pyStrip s.data with
  | [] => none
  | '-' :: ds =>
      if !ds.isEmpty && ds.all Char.isDigit then some (-(digitsToNat ds : Int)) else none
  | '+' :: ds =>
      if !ds.isEmpty && ds.all Char.isDigit then some ((digitsToNat ds : Int)) else none
  | ds =>
      if ds.all Char.isDigit then some ((digitsToNat ds : Int)) else none

/-- Model of the Python int(...) coercion applied to a JSON value: an
integer is returned as is, a boolean becomes 0 or 1, a numeric string is
parsed, and any other value (null, list, dict) raises TypeError,
modelled by none. -/
def pyToInt : Json → Option Int
  | .num n => some n
  | .bool b => some (if b then 1 else 0)
  | .str s => parsePyIntStr s
  | _ => none

/-- The try block of cache.get applied to an existing cache file: read
the text (corrupt means the read or json.loads raises), require a dict
for obj.get, coerce the ts field (defaulting to 0 when absent) with
int(...), and when now - ts <= ttl return the stored payload field.
A none result means the block raised or the entry is stale, and control
falls through to the compute path. -/
def tryReadFresh (c : FileContent) (ttl now : Int) : Option Json :=
  match c with
  | .corrupt => none
  | .doc j =>
    match j with
    | .obj kvs =>
      match pyToInt ((lookupKV kvs "ts").getD (.num 0)) with
      | none => none
      | some ts =>
        if now - ts ≤ ttl then lookupKV kvs "payload"
        else none
    | _ => none

/-- The whole read side of cache.get for a key: none when the cache file
does not exist, otherwise the result of the try block. -/
def readCached (fs : FS) (key : String) (ttl now : Int) : Option Json :=
  match fs (_make_key key) with
  | some c => tryReadFresh c ttl now
  | none => none

/-- The JSON document cache.get writes on a miss: payload, ts and ttl
fields (json.dumps with sort_keys=True orders them this way). -/
def cacheEntry (payload : Json) (ts ttl : Int) : Json :=
  .obj [("payload", payload), ("ts", .num ts), ("ttl", .num ttl)]

/-- Embedding of cache.get. The compute callback fun is replaced by its
outcome r (ok with a JSON-serializable result, or error when it raises);
the two int(time.time()) reads become the explicit parameters now (the
freshness check) and writeNow (the timestamp written on a miss). The
result carries the returned value or propagated error, the cache
directory afterward, and the number of times the callback ran. -/
def cacheGet {ε : Type} (fs : FS) (key : String) (r : Except ε Json)
    (ttl now writeNow : Int) : Except ε Json × FS × Nat :=
  let cache_key := _make_key key
  match readCached fs key ttl now with
  | some payload => (.ok payload, fs, 0)
  | none =>
    match r with
    | .error e => (.error e, fs, 1)
    | .ok result =>
        (.ok result, fs.update cache_key (.doc (cacheEntry result writeNow ttl)), 1)

/-! ## RSS fetching (src/tools/rss.py, function fetch_rss) -/

/-- One normalized feed item, as the dictionaries fetch_rss builds. -/
structure RssItem where
  title : String
  link : String
  source : String
  source_slug : String
  source_host : String
  slug : String
  published : String
  summary : String
  deriving Repr, DecidableEq

/-- Finds the first scheme separator and returns what follows it. -/
def afterSchemeSep : List Char → Option (List Char)
  | [] => none
  | ':' :: '/' :: '/' :: rest => some rest
  | _ :: rest => afterSchemeSep rest

/-- Model of urlparse(url).netloc for the absolute http(s) URLs fetch_rss
receives: the text between the scheme separator and the next slash. -/
def netlocOf (url : String) : String :=
  match afterSchemeSep url.data with
  | some rest => String.mk (rest.takeWhile (fun c => c ≠ '/'))
  | none => ""

/-- Removes one dash of every adjacent pair, so that runs of dashes
collapse to a single dash, matching the regex substitution in _slugify
that maps every run of non-alphanumerics to one dash. -/
def collapseDashes : List Char → List Char
  | [] => []
  | c :: rest =>
    let r := collapseDashes rest
    if c = '-' then
      match r with
      | '-' :: _ => r
      | _ => c :: r
    else c :: r

/-- Python str.strip applied with the dash character: drop leading and
trailing dashes. -/
def stripDashes (l : List Char) : List Char :=
  ((l.dropWhile (fun c => c = '-')).reverse.dropWhile (fun c => c = '-')).reverse

/-- Embedding of rss._slugify: lowercase, strip surrounding whitespace,
replace every run of characters outside a-z and 0-9 with one dash, strip
surrounding dashes, and fall back to untitled when nothing remains. HTML
entity unescaping is modelled as the identity (the inputs of interest,
host names and plain titles, contain no entities). -/
def _slugify (s : String) : String :=
  let t := pyStrip (s.data.map Char.toLower)
  let mapped := t.map
    (fun c => if ('a' ≤ c ∧ c ≤ 'z') ∨ ('0' ≤ c ∧ c ≤ '9') then c else '-')
  let stripped := stripDashes (collapseDashes mapped)
  if stripped.isEmpty then "untitled" else String.mk stripped

/-- Outcome of the body of the per-feed try block in fetch_rss, used as
an oracle for the network fetch and the XML parsing: either a parsed
item list, or the exception the block raised before items were assigned
(HTTPError and URLError, ET.ParseError, or any other exception), with
the message text the handler would format. -/
inductive FetchOutcome where
  | ok (parsed : List RssItem)
  | httpErr (msg : String)
  | parseErr (msg : String)
  | otherErr (msg : String)
  deriving Repr

/-- Modelled from the spec: the helpers read_cache, write_cache and
make_key that src/tools/rss.py imports from tools.cache are not present
under src (the cache.py in src only defines get and _make_key). Per the
spec, read_cache returns the previously stored payload for a key when a
fresh entry exists and otherwise signals a miss, and write_cache
persists the freshly parsed items without affecting the value returned.
Each feed URL of the input list is therefore paired with the read_cache
result for its key (cached, none meaning miss or stale) and with the
fetch outcome oracle used on a miss. -/
structure FeedInput where
  url : String
  cached : Option (List RssItem)
  outcome : FetchOutcome
  deriving Repr

/-- The placeholder item appended by the HTTPError and URLError handler. -/
def errorFetchingItem (url msg nowIso : String) : RssItem :=
  let host := netlocOf url
  { title := "Error fetching feed", link := url, source := host,
    source_slug := _slugify host, source_host := host,
    slug := "error-fetching-feed", published := nowIso, summary := msg }

/-- The placeholder item appended by the ET.ParseError handler. -/
def errorParsingItem (url msg nowIso : String) : RssItem :=
  let host := netlocOf url
  { title := "Error parsing feed XML", link := url, source := host,
    source_slug := _slugify host, source_host := host,
    slug := "error-parsing-feed", published := nowIso, summary := msg }

/-- The placeholder item appended by the catch-all exception handler. -/
def errorUnexpectedItem (url msg nowIso : String) : RssItem :=
  let host := netlocOf url
  { title := "Unexpected error fetching feed", link := url, source := host,
    source_slug := _slugify host, source_host := host,
    slug := "unexpected-error", published := nowIso, summary := msg }

/-- The per-feed truncation items[:per_feed_limit], guarded by the
truthiness test if per_feed_limit and per_feed_limit > 0. -/
def perFeedTrim (perLimit : Int) (items : List RssItem) : List RssItem :=
  if perLimit > 0 then items.take perLimit.toNat else items

/-- Items contributed to all_items by one feed of the loop in fetch_rss:
the cached list on a hit, otherwise the parsed items truncated to the
per-feed limit, or the single placeholder item the matching exception
handler appends. The published field of a placeholder is _iso_now(),
passed in as nowIso. -/
def feedItems (nowIso : String) (perLimit : Int) (f : FeedInput) : List RssItem :=
  match f.cached with
  | some items => items
  | none =>
    match f.outcome with
    | .ok parsed => perFeedTrim perLimit parsed
    | .httpErr m => [errorFetchingItem f.url m nowIso]
    | .parseErr m => [errorParsingItem f.url m nowIso]
    | .otherErr m => [errorUnexpectedItem f.url m nowIso]

/-- The all_items accumulation of fetch_rss before the total limit. -/
def fetchRssAll (nowIso : String) (perLimit : Int) (feeds : List FeedInput) : List RssItem :=
  feeds.flatMap (feedItems nowIso perLimit)

/-- The truncation all_items[:total_limit], guarded by the truthiness
test if total_limit and total_limit > 0. -/
def totalTrim (totalLimit : Int) (items : List RssItem) : List RssItem :=
  if totalLimit > 0 then items.take totalLimit.toNat else items

/-- Embedding of fetch_rss restricted to the items field of its result:
the concatenated per-feed item lists, truncated to the total limit. The
groups and meta fields are projections of the same list and carry no
separate behavior. -/
def fetch_rss_items (nowIso : String) (perLimit totalLimit : Int)
    (feeds : List FeedInput) : List RssItem :=
  totalTrim totalLimit (fetchRssAll nowIso perLimit feeds)

/-! ## Official cutoff time (src/tools/util.py, get_official_cutoff_time) -/

/-- State of data/cache/official.json as the function observes it:
missing, present but not valid JSON (json.load raises JSONDecodeError),
or present with a parsed JSON document. -/
inductive OfficialFile where
  | absent
  | notJson
  | parsed (j : Json)
  deriving Repr

/-- Exceptions get_official_cutoff_time can let escape: AttributeError
when the parsed document is not a dict (data.get fails), and TypeError
when datetime.fromisoformat is applied to a non-string; neither is in
the caught tuple (FileNotFoundError, json.JSONDecodeError, ValueError). -/
inductive PyError where
  | attrError
  | typeError
  deriving Repr, DecidableEq

/-- Python truthiness of a JSON value, as in the test
if last_official_str. -/
def jsonTruthy : Json → Bool
  | .null => false
  | .bool b => b
  | .num n => n != 0
  | .str s => s != ""
  | .arr xs => !xs.isEmpty
  | .obj kvs => !kvs.isEmpty

/-- Embedding of util.get_official_cutoff_time. Datetimes are UTC
instants in epoch seconds; now is datetime.now(timezone.utc) and oldest
the timedelta argument. The oracle fromIso models
datetime.fromisoformat combined with the tzinfo normalization that
follows it (a naive result is interpreted as UTC, an aware one converted
to UTC), returning the UTC instant or none when fromisoformat raises
ValueError. A dict value for last_official that is truthy but not a
string reaches fromisoformat itself and raises TypeError, which the
except clause does not catch; a non-dict top level raises AttributeError
at data.get, also uncaught. -/
def get_official_cutoff_time (now oldest : Int) (file : OfficialFile)
    (fromIso : String → Option Int) : Except PyError Int :=
  let default_cutoff := now - oldest
  match file with
  | .absent => .ok default_cutoff
  | .notJson => .ok default_cutoff
  | .parsed (.obj kvs) =>
    match lookupKV kvs "last_official" with
    | none => .ok default_cutoff
    | some v =>
      if jsonTruthy v then
        match v with
        | .str s =>
          match fromIso s with
          | some t => .ok (max t default_cutoff)
          | none => .ok default_cutoff
        | _ => .error .typeError
      else .ok default_cutoff
  | .parsed _ => .error .attrError

set_option maxRecDepth 100000

theorem sha1Hex_abc : sha1Hex (utf8Bytes "abc") = "a9993e364706816aba3e25717850c26c9cd0d89d" := by
  decide

theorem sha1Hex_empty : sha1Hex (utf8Bytes "") = "da39a3ee5e6b4b0d3255bfef95601890afd80709" := by
  decide

/-! ## Helper lemmas -/

theorem FS.update_self (fs : FS) (name : String) (c : FileContent) :
    (fs.update name c) name = some c := by
  simp [FS.update]

theorem FS.update_other (fs : FS) (name n : String) (c : FileContent) (h : n ≠ name) :
    (fs.update name c) n = fs n := by
  simp [FS.update, h]

theorem readCached_congr (fs fs2 : FS) (key : String) (ttl now : Int)
    (h : fs2 (_make_key key) = fs (_make_key key)) :
    readCached fs2 key ttl now = readCached fs key ttl now := by
  simp [readCached, h]

/-! ## Witness fixtures -/

/-- An empty cache directory. -/
def fsEmpty : FS := fun _ => none

/-- A cache directory whose every file holds a well-formed entry with
payload v and timestamp 50. -/
def fsFresh : FS :=
  fun _ => some (.doc (.obj [("payload", .str "v"), ("ts", .num 50)]))

/-! ## Claims -/

/-- C1: for every key whose stored entry has age now - stored_at <= ttl
(including a negative age when the clock moved backward), get returns
the previously stored payload and does not invoke compute: the result is
the stored payload field, the cache directory is untouched, and the
callback run count is 0, whatever the callback outcome r would be. -/
theorem cacheGet_fresh_hit {ε : Type} (fs : FS) (key : String) (r : Except ε Json)
    (ttl now writeNow ts : Int) (kvs : List (String × Json)) (payload : Json)
    (hfile : fs (_make_key key) = some (.doc (.obj kvs)))
    (hts : lookupKV kvs "ts" = some (.num ts))
    (hpay : lookupKV kvs "payload" = some payload)
    (hfresh : now - ts ≤ ttl) :
    cacheGet fs key r ttl now writeNow = (.ok payload, fs, 0) := by
  simp [cacheGet, readCached, hfile, tryReadFresh, hts, pyToInt, hfresh, hpay]

theorem cacheGet_fresh_hit_witness :
    cacheGet fsFresh "k" (Except.error "boom") 100 40 40 = (Except.ok (Json.str "v"), fsFresh, 0) :=
  cacheGet_fresh_hit fsFresh "k" (Except.error "boom") 100 40 40 50
    [("payload", .str "v"), ("ts", .num 50)] (.str "v") rfl rfl rfl (by decide)

/-- C2: for every key with no stored entry or a stale or unreadable one
(readCached yields nothing), get invokes compute exactly once (run count
1), persists its result tagged with the write-time timestamp and the
given ttl, fully replacing any prior file for that digest, and returns
the result. -/
theorem cacheGet_miss_persists {ε : Type} (fs : FS) (key : String) (v : Json)
    (ttl now writeNow : Int)
    (hmiss : readCached fs key ttl now = none) :
    cacheGet (ε := ε) fs key (Except.ok v) ttl now writeNow =
      (.ok v, fs.update (_make_key key) (.doc (cacheEntry v writeNow ttl)), 1)
    ∧ (cacheGet (ε := ε) fs key (Except.ok v) ttl now writeNow).2.1 (_make_key key)
      = some (.doc (cacheEntry v writeNow ttl)) := by
  refine ⟨by simp [cacheGet, hmiss], ?_⟩
  simp [cacheGet, hmiss, FS.update_self]

theorem cacheGet_miss_persists_witness :
    cacheGet (ε := String) fsEmpty "k" (Except.ok (Json.str "v")) 60 100 100 =
      (Except.ok (Json.str "v"),
        fsEmpty.update (_make_key "k") (.doc (cacheEntry (Json.str "v") 100 60)), 1) :=
  (cacheGet_miss_persists fsEmpty "k" (Json.str "v") 60 100 100 rfl).1

/-- C3: for every key and every compute callback that raises, get
propagates the same exception unchanged and writes nothing: the cache
directory afterward is exactly the one before, so an absent entry stays
absent and a present entry stays untouched. -/
theorem cacheGet_error_propagates {ε : Type} (fs : FS) (key : String) (e : ε)
    (ttl now writeNow : Int)
    (hmiss : readCached fs key ttl now = none) :
    cacheGet fs key (Except.error e) ttl now writeNow = (.error e, fs, 1) := by
  simp [cacheGet, hmiss]

theorem cacheGet_error_propagates_witness :
    cacheGet fsEmpty "k" (Except.error "boom") 60 100 100 =
      (Except.error "boom", fsEmpty, 1) :=
  cacheGet_error_propagates fsEmpty "k" "boom" 60 100 100 rfl

/-- A cache directory whose every file holds an entry whose ts field is
the string of a number rather than a JSON integer. -/
def fsStrTs : FS :=
  fun _ => some (.doc (.obj [("ts", .str "100"), ("payload", .str "x")]))

/-- C4 counterexample: an entry whose ts field is the JSON string of a
number does not have the expected schema, yet int(...) coerces it, so at
now = 100 and ttl = 50 the entry counts as fresh: get returns the stored
payload with the callback never run (count 0) and the file is not
overwritten, contradicting the claim that such an entry is treated as a
cache miss. -/
theorem cacheGet_schema_counterexample :
    cacheGet (ε := String) fsStrTs "k" (Except.ok (Json.str "fresh")) 50 100 100 =
      (Except.ok (Json.str "x"), fsStrTs, 0) := by
  rfl

/-- A cache directory whose every file is unreadable or not JSON. -/
def fsCorrupt : FS := fun _ => some .corrupt

/-- C4 amended: an entry that is unreadable or not valid JSON, or whose
document is not a dict, or whose ts field fails the int(...) coercion,
or which is fresh after coercion but lacks a payload field, is treated
as a cache miss: compute runs once, the entry is overwritten, and no
error reaches the caller. (As the counterexample shows, a ts field that
int(...) does coerce — a numeric string or a boolean — is not downgraded,
and a missing ts merely defaults to timestamp 0.) -/
theorem cacheGet_corrupt_entry_is_miss {ε : Type} (fs : FS) (key : String)
    (c : FileContent) (v : Json) (ttl now writeNow : Int)
    (hfile : fs (_make_key key) = some c)
    (hbad : c = .corrupt
      ∨ (∃ j, c = .doc j ∧ ∀ kvs, j ≠ .obj kvs)
      ∨ (∃ kvs, c = .doc (.obj kvs) ∧ pyToInt ((lookupKV kvs "ts").getD (.num 0)) = none)
      ∨ (∃ kvs, c = .doc (.obj kvs)
          ∧ (∃ ts, pyToInt ((lookupKV kvs "ts").getD (.num 0)) = some ts ∧ now - ts ≤ ttl)
          ∧ lookupKV kvs "payload" = none)) :
    cacheGet (ε := ε) fs key (Except.ok v) ttl now writeNow =
      (.ok v, fs.update (_make_key key) (.doc (cacheEntry v writeNow ttl)), 1) := by
  have hmiss : readCached fs key ttl now = none := by
    rcases hbad with h | ⟨j, hj, hne⟩ | ⟨kvs, hk, hpy⟩ | ⟨kvs, hk, ⟨ts, hts, hfr⟩, hpay⟩
    · simp [readCached, hfile, h, tryReadFresh]
    · subst hj
      cases j with
      | obj kvs => exact absurd rfl (hne kvs)
      | null => simp [readCached, hfile, tryReadFresh]
      | bool b => simp [readCached, hfile, tryReadFresh]
      | num n => simp [readCached, hfile, tryReadFresh]
      | str s => simp [readCached, hfile, tryReadFresh]
      | arr xs => simp [readCached, hfile, tryReadFresh]
    · simp [readCached, hfile, hk, tryReadFresh, hpy]
    · simp [readCached, hfile, hk, tryReadFresh, hts, hfr, hpay]
  simp [cacheGet, hmiss]

theorem cacheGet_corrupt_entry_is_miss_witness :
    cacheGet (ε := String) fsCorrupt "k" (Except.ok (Json.str "v")) 60 100 100 =
      (Except.ok (Json.str "v"),
        fsCorrupt.update (_make_key "k") (.doc (cacheEntry (Json.str "v") 100 60)), 1) :=
  cacheGet_corrupt_entry_is_miss fsCorrupt "k" .corrupt (Json.str "v") 60 100 100 rfl
    (Or.inl rfl)

/-- A cache directory whose every file holds a well-formed entry with
payload v and timestamp 100. -/
def fsTs100 : FS :=
  fun _ => some (.doc (.obj [("payload", .str "v"), ("ts", .num 100)]))

/-- C5 counterexample: with ttl = 0 and an entry stored in the same
second as the call (ts = now = 100), the freshness test now - ts <= 0
succeeds, so get returns the stored payload with the callback never run
and nothing persisted, contradicting the claim that ttl = 0 always
recomputes. -/
theorem cacheGet_ttl0_counterexample :
    cacheGet (ε := String) fsTs100 "k" (Except.ok (Json.str "new")) 0 100 100 =
      (Except.ok (Json.str "v"), fsTs100, 0) := by
  rfl

/-- C5 amended: with ttl = 0, an entry stored in a strictly earlier
second than the call is treated as stale — compute runs and the new
result is persisted — but an entry stored in the same second as the
call, or later, still counts as fresh and is returned without invoking
compute. -/
theorem cacheGet_ttl0_strictly_older {ε : Type} (fs : FS) (key : String)
    (r : Except ε Json) (v : Json) (now writeNow ts : Int)
    (kvs : List (String × Json)) (payload : Json)
    (hfile : fs (_make_key key) = some (.doc (.obj kvs)))
    (hts : lookupKV kvs "ts" = some (.num ts))
    (hpay : lookupKV kvs "payload" = some payload) :
    (ts < now → cacheGet (ε := ε) fs key (Except.ok v) 0 now writeNow =
      (.ok v, fs.update (_make_key key) (.doc (cacheEntry v writeNow 0)), 1))
    ∧ (now ≤ ts → cacheGet fs key r 0 now writeNow = (.ok payload, fs, 0)) := by
  constructor
  · intro hlt
    have hmiss : readCached fs key 0 now = none := by
      have hstale : ¬ now - ts ≤ 0 := by omega
      simp [readCached, hfile, tryReadFresh, hts, pyToInt, hstale]
    simp [cacheGet, hmiss]
  · intro hle
    have hfresh : now - ts ≤ 0 := by omega
    simp [cacheGet, readCached, hfile, tryReadFresh, hts, pyToInt, hfresh, hpay]

theorem cacheGet_ttl0_strictly_older_witness :
    cacheGet (ε := String) fsTs100 "k" (Except.ok (Json.str "new")) 0 101 101 =
      (Except.ok (Json.str "new"),
        fsTs100.update (_make_key "k") (.doc (cacheEntry (Json.str "new") 101 0)), 1)
    ∧ cacheGet (ε := String) fsTs100 "k" (Except.ok (Json.str "new")) 0 100 100 =
      (Except.ok (Json.str "v"), fsTs100, 0) :=
  ⟨(cacheGet_ttl0_strictly_older fsTs100 "k" (Except.ok (Json.str "new")) (Json.str "new")
      101 101 100 [("payload", .str "v"), ("ts", .num 100)] (.str "v") rfl rfl rfl).1
      (by decide),
   (cacheGet_ttl0_strictly_older fsTs100 "k" (Except.ok (Json.str "new")) (Json.str "new")
      100 100 100 [("payload", .str "v"), ("ts", .num 100)] (.str "v") rfl rfl rfl).2
      (by decide)⟩

/-- C6: the digest is a deterministic function of the key string alone —
equal keys give equal digests — and the concrete pair of keys differing
only in case derive different digests, so their entries do not collide. -/
theorem make_key_deterministic_case_sensitive :
    _make_key "Feed:A" ≠ _make_key "feed:a"
    ∧ ∀ s t : String, s = t → _make_key s = _make_key t :=
  ⟨by decide, fun _ _ h => by rw [h]⟩

theorem make_key_deterministic_case_sensitive_witness :
    _make_key "Feed:A" = _make_key "Feed:A" :=
  make_key_deterministic_case_sensitive.2 "Feed:A" "Feed:A" rfl

/-- Freshly written cache entries read back as their payload: the entry
written by the miss path, read at any instant within ttl of the write
timestamp, parses as fresh and yields the stored payload. -/
theorem tryReadFresh_entry (payload : Json) (ts ttl now : Int) (h : now - ts ≤ ttl) :
    tryReadFresh (.doc (cacheEntry payload ts ttl)) ttl now = some payload := by
  simp [tryReadFresh, cacheEntry, lookupKV, pyToInt, h]

/-- C7: round-trip — for every JSON payload, key and ttl, the writing
call returns the payload itself, and an immediately following call
within ttl of the write hits the fresh entry and returns the identical
payload, whatever its own callback q would produce, leaving the
directory unchanged. -/
theorem cacheGet_roundtrip {ε : Type} (fs : FS) (key : String) (payload : Json)
    (ttl now writeNow now2 writeNow2 : Int) (q : Except ε Json)
    (hmiss : readCached fs key ttl now = none)
    (hfresh : now2 - writeNow ≤ ttl) :
    cacheGet (ε := ε) fs key (Except.ok payload) ttl now writeNow
      = (.ok payload, fs.update (_make_key key) (.doc (cacheEntry payload writeNow ttl)), 1)
    ∧ cacheGet (fs.update (_make_key key) (.doc (cacheEntry payload writeNow ttl))) key q
        ttl now2 writeNow2
      = (.ok payload, fs.update (_make_key key) (.doc (cacheEntry payload writeNow ttl)), 0) := by
  constructor
  · simp [cacheGet, hmiss]
  · have hread : readCached (fs.update (_make_key key) (.doc (cacheEntry payload writeNow ttl)))
        key ttl now2 = some payload := by
      rw [readCached, FS.update_self]
      exact tryReadFresh_entry payload writeNow ttl now2 hfresh
    simp [cacheGet, hread]

theorem cacheGet_roundtrip_witness :
    cacheGet (ε := String) fsEmpty "k" (Except.ok (Json.str "p")) 60 100 100
      = (Except.ok (Json.str "p"),
          fsEmpty.update (_make_key "k") (.doc (cacheEntry (Json.str "p") 100 60)), 1)
    ∧ cacheGet (ε := String) (fsEmpty.update (_make_key "k") (.doc (cacheEntry (Json.str "p") 100 60))) "k"
        (Except.ok (Json.str "q")) 60 110 110
      = (Except.ok (Json.str "p"),
          fsEmpty.update (_make_key "k") (.doc (cacheEntry (Json.str "p") 100 60)), 0) :=
  cacheGet_roundtrip fsEmpty "k" (Json.str "p") 60 100 100 110 110
    (Except.ok (Json.str "q")) rfl (by decide)

/-- C9: frame property — a call of get writes at most the one cache file
named by the digest of its key, every differently named file (hence the
entry of every key with a different digest) being unchanged, and reads
only that file: two directories agreeing on that one file give the same
returned value and the same callback run count. -/
theorem cacheGet_frame {ε : Type} (fs : FS) (key : String) (r : Except ε Json)
    (ttl now writeNow : Int) :
    (∀ n, n ≠ _make_key key → (cacheGet fs key r ttl now writeNow).2.1 n = fs n)
    ∧ ∀ fs2 : FS, fs2 (_make_key key) = fs (_make_key key) →
        (cacheGet fs2 key r ttl now writeNow).1 = (cacheGet fs key r ttl now writeNow).1
        ∧ (cacheGet fs2 key r ttl now writeNow).2.2
          = (cacheGet fs key r ttl now writeNow).2.2 := by
  constructor
  · intro n hn
    cases hrc : readCached fs key ttl now with
    | some payload => simp [cacheGet, hrc]
    | none =>
      cases r with
      | error e => simp [cacheGet, hrc]
      | ok v => simp [cacheGet, hrc, FS.update_other fs (_make_key key) n _ hn]
  · intro fs2 h
    have hrc : readCached fs2 key ttl now = readCached fs key ttl now :=
      readCached_congr fs fs2 key ttl now h
    cases hcv : readCached fs key ttl now with
    | some payload => exact ⟨by simp [cacheGet, hrc, hcv], by simp [cacheGet, hrc, hcv]⟩
    | none =>
      cases r with
      | error e => exact ⟨by simp [cacheGet, hrc, hcv], by simp [cacheGet, hrc, hcv]⟩
      | ok v => exact ⟨by simp [cacheGet, hrc, hcv], by simp [cacheGet, hrc, hcv]⟩

theorem cacheGet_frame_witness :
    (cacheGet (ε := String) fsEmpty "k" (Except.ok (Json.str "v")) 1 2 3).2.1 "x" = fsEmpty "x"
    ∧ (cacheGet (ε := String) fsEmpty "k" (Except.ok (Json.str "v")) 1 2 3).1
      = (cacheGet (ε := String) fsEmpty "k" (Except.ok (Json.str "v")) 1 2 3).1 :=
  ⟨(cacheGet_frame fsEmpty "k" (Except.ok (Json.str "v")) 1 2 3).1 "x" (by decide),
   ((cacheGet_frame fsEmpty "k" (Except.ok (Json.str "v")) 1 2 3).2 fsEmpty rfl).1⟩

/-- The placeholder item the matching exception handler of fetch_rss
appends for a failing outcome, none for a successful one. -/
def failurePlaceholder : FetchOutcome → String → String → Option RssItem
  | .httpErr m, url, nowIso => some (errorFetchingItem url m nowIso)
  | .parseErr m, url, nowIso => some (errorParsingItem url m nowIso)
  | .otherErr m, url, nowIso => some (errorUnexpectedItem url m nowIso)
  | .ok _, _, _ => none

/-- First fixture item of a successfully cached feed. -/
def itemA1 : RssItem :=
  { title := "A1", link := "https://a.example/1", source := "A", source_slug := "a",
    source_host := "a.example", slug := "a1",
    published := "2026-10-12T00:00:00+00:00", summary := "" }

/-- Second fixture item of a successfully cached feed. -/
def itemA2 : RssItem :=
  { title := "A2", link := "https://a.example/2", source := "A", source_slug := "a",
    source_host := "a.example", slug := "a2",
    published := "2026-10-12T00:00:00+00:00", summary := "" }

/-- C8 counterexample: with total_limit 2, a first feed already
contributing two items and a second feed whose fetch raises an HTTP
error, the placeholder item for the failing feed is cut off by the
all_items[:total_limit] truncation and is absent from the returned
items, contradicting the claim that it is recorded in the returned
items. -/
theorem fetch_rss_truncation_counterexample :
    errorFetchingItem "https://bad.example/feed" "HTTPError: boom" "2026-10-12T00:00:00+00:00"
      ∉ fetch_rss_items "2026-10-12T00:00:00+00:00" 5 2
        [⟨"https://a.example/feed", some [itemA1, itemA2], FetchOutcome.ok []⟩,
         ⟨"https://bad.example/feed", none, FetchOutcome.httpErr "HTTPError: boom"⟩] := by
  decide

/-- C8 amended: for every feed whose fetch raises a network or HTTP
error, whose response fails XML parsing, or whose processing raises any
other exception, fetch_rss does not raise: it records the matching
synthetic placeholder item for that feed in the item stream accumulated
before the total-limit truncation — so the placeholder reaches the
returned items whenever the total limit does not cut it off — and the
remaining feeds are still processed, the returned items being exactly
that stream truncated to the total limit. -/
theorem fetch_rss_failing_feed (nowIso : String) (perLimit totalLimit : Int)
    (pre post : List FeedInput) (url : String) (o : FetchOutcome) (it : RssItem)
    (hfail : failurePlaceholder o url nowIso = some it) :
    fetchRssAll nowIso perLimit (pre ++ ⟨url, none, o⟩ :: post)
      = fetchRssAll nowIso perLimit pre ++ it :: fetchRssAll nowIso perLimit post
    ∧ fetch_rss_items nowIso perLimit totalLimit (pre ++ ⟨url, none, o⟩ :: post)
      = totalTrim totalLimit
          (fetchRssAll nowIso perLimit pre ++ it :: fetchRssAll nowIso perLimit post) := by
  have h1 : feedItems nowIso perLimit ⟨url, none, o⟩ = [it] := by
    cases o with
    | ok parsed => simp [failurePlaceholder] at hfail
    | httpErr m =>
        simp only [failurePlaceholder, Option.some.injEq] at hfail
        simp [feedItems, hfail]
    | parseErr m =>
        simp only [failurePlaceholder, Option.some.injEq] at hfail
        simp [feedItems, hfail]
    | otherErr m =>
        simp only [failurePlaceholder, Option.some.injEq] at hfail
        simp [feedItems, hfail]
  have h2 : fetchRssAll nowIso perLimit (pre ++ ⟨url, none, o⟩ :: post)
      = fetchRssAll nowIso perLimit pre ++ it :: fetchRssAll nowIso perLimit post := by
    simp [fetchRssAll, List.flatMap_append, h1]
  exact ⟨h2, by rw [fetch_rss_items, h2]⟩

theorem fetch_rss_failing_feed_witness :
    fetchRssAll "t0" 5 ([] ++ ⟨"https://bad.example/feed", none, FetchOutcome.parseErr "bad"⟩ :: [])
      = fetchRssAll "t0" 5 []
        ++ errorParsingItem "https://bad.example/feed" "bad" "t0" :: fetchRssAll "t0" 5 []
    ∧ fetch_rss_items "t0" 5 10 ([] ++ ⟨"https://bad.example/feed", none, FetchOutcome.parseErr "bad"⟩ :: [])
      = totalTrim 10
          (fetchRssAll "t0" 5 []
            ++ errorParsingItem "https://bad.example/feed" "bad" "t0" :: fetchRssAll "t0" 5 []) :=
  fetch_rss_failing_feed "t0" 5 10 [] [] "https://bad.example/feed"
    (FetchOutcome.parseErr "bad") (errorParsingItem "https://bad.example/feed" "bad" "t0") rfl

/-- C10 counterexample: a file whose last_official field holds a truthy
non-string (the number 123) reaches datetime.fromisoformat, which raises
TypeError — not in the caught tuple — so the call raises instead of
returning the default cutoff, contradicting the claim that a cutoff at
least now - oldest is always returned and no error raised. -/
theorem cutoff_typeerror_counterexample :
    get_official_cutoff_time 100 10 (.parsed (.obj [("last_official", Json.num 123)]))
      (fun _ => none) = .error .typeError := by
  rfl

/-- C10 amended: every non-raising run of get_official_cutoff_time
returns at least now - oldest; an absent or JSON-unparseable file yields
exactly the default now - oldest; a dict file whose truthy string
last_official parses yields the maximum of that instant and the default,
and yields the default when the string fails to parse (ValueError is
caught). However a parsed document that is not a dict raises an uncaught
AttributeError, and a truthy non-string last_official raises an uncaught
TypeError, so the lower bound only holds for runs that return. -/
theorem cutoff_lower_bound (now oldest : Int) (file : OfficialFile)
    (fromIso : String → Option Int) :
    (∀ t, get_official_cutoff_time now oldest file fromIso = .ok t → now - oldest ≤ t)
    ∧ (file = .absent ∨ file = .notJson →
        get_official_cutoff_time now oldest file fromIso = .ok (now - oldest))
    ∧ ∀ kvs s, file = .parsed (.obj kvs) → lookupKV kvs "last_official" = some (.str s) →
        s ≠ "" →
        get_official_cutoff_time now oldest file fromIso
          = .ok (match fromIso s with
                 | some t => max t (now - oldest)
                 | none => now - oldest) := by
  refine ⟨?_, ?_, ?_⟩
  · intro t h
    cases file with
    | absent =>
        simp [get_official_cutoff_time] at h
        omega
    | notJson =>
        simp [get_official_cutoff_time] at h
        omega
    | parsed j =>
      cases j with
      | obj kvs =>
        cases hl : lookupKV kvs "last_official" with
        | none =>
            simp [get_official_cutoff_time, hl] at h
            omega
        | some v =>
          cases htr : jsonTruthy v with
          | false =>
              simp [get_official_cutoff_time, hl, htr] at h
              omega
          | true =>
            cases v with
            | str s =>
              cases hfi : fromIso s with
              | some tp =>
                  simp [get_official_cutoff_time, hl, htr, hfi] at h
                  rw [← h]
                  exact le_max_right _ _
              | none =>
                  simp [get_official_cutoff_time, hl, htr, hfi] at h
                  omega
            | null => simp [jsonTruthy] at htr
            | bool b => simp [get_official_cutoff_time, hl, htr] at h
            | num n => simp [get_official_cutoff_time, hl, htr] at h
            | arr xs => simp [get_official_cutoff_time, hl, htr] at h
            | obj kvs2 => simp [get_official_cutoff_time, hl, htr] at h
      | null => simp [get_official_cutoff_time] at h
      | bool b => simp [get_official_cutoff_time] at h
      | num n => simp [get_official_cutoff_time] at h
      | str s => simp [get_official_cutoff_time] at h
      | arr xs => simp [get_official_cutoff_time] at h
  · rintro (rfl | rfl) <;> rfl
  · intro kvs s hfile hl hs
    subst hfile
    have htr : jsonTruthy (.str s) = true := by
      simp [jsonTruthy, hs]
    cases hfi : fromIso s with
    | some tp => simp [get_official_cutoff_time, hl, htr, hfi]
    | none => simp [get_official_cutoff_time, hl, htr, hfi]

theorem cutoff_lower_bound_witness :
    (100 : Int) - 10 ≤ 90
    ∧ get_official_cutoff_time 100 10 .absent (fun _ => none) = .ok (100 - 10) :=
  ⟨(cutoff_lower_bound 100 10 .absent (fun _ => none)).1 90 rfl,
   (cutoff_lower_bound 100 10 .absent (fun _ => none)).2.1 (Or.inl rfl)⟩

end DailyBriefing
